import Mathlib

/-!
Formal model of astroNN's `NeuralNetMaster` class
(`src/astroNN/models/NeuralNetMaster.py`).

The numpy arrays that flow through `jacobian` and
`pre_training_checklist_master` are modelled as a shape (list of
dimension sizes) together with a total indexing function into the
rationals.  All array operations used by the source (`np.array` copy,
in-place normalisation, `np.atleast_3d`, trailing `np.newaxis`
insertion, `np.ones` allocation, basic slice assignment, and
`np.mean(axis=-1)`) are translated directly from their numpy semantics.
The TensorFlow session evaluation (`get_session().run(final_stack, ...)`)
is an external oracle and appears as an uninterpreted function parameter
of the model; every theorem below holds for an arbitrary oracle.
-/

/-- A dense numpy-style array: a shape together with a total indexing
function.  Only indices that are in range for the shape are meaningful;
the function is kept total for convenience. -/
structure NDArray where
  shape : List Nat
  val : List Nat → Rat

instance : Inhabited NDArray := ⟨⟨[], fun _ => 0⟩⟩

/-- Number of axes of the array (`ndarray.ndim`). -/
def NDArray.ndim (a : NDArray) : Nat := a.shape.length

/-- Size of axis `i` (`ndarray.shape[i]`), defaulting to `0` out of range. -/
def NDArray.dim (a : NDArray) (i : Nat) : Nat := a.shape.getD i 0

/-- Lines 212-214 of `NeuralNetMaster.py`: the elementwise effect of
`x_data -= self.input_mean` followed by `x_data /= self.input_std` on the
fresh copy `x_data = np.array(x)`.  The stored normalisation statistics
are modelled as scalars, which is the broadcast the claims exercise. -/
def normalizeInput (mean std : Rat) (a : NDArray) : NDArray :=
  ⟨a.shape, fun idx => (a.val idx - mean) / std⟩

/-- Numpy's `np.atleast_3d`: 0-d becomes `(1,1,1)`, 1-d `(N,)` becomes
`(1,N,1)`, 2-d `(M,N)` becomes `(M,N,1)`, everything else is returned
unchanged (line 226 of the source). -/
def atleast_3d (a : NDArray) : NDArray :=
  match a.shape with
  | [] => ⟨[1, 1, 1], fun _ => a.val []⟩
  | [n] => ⟨[1, n, 1], fun idx =>
      match idx with
      | _ :: j :: _ => a.val [j]
      | _ => a.val []⟩
  | [m, n] => ⟨[m, n, 1], fun idx =>
      match idx with
      | i :: j :: _ => a.val [i, j]
      | _ => a.val []⟩
  | _ => a

/-- Line 243 of the source, `x_data[:, :, :, np.newaxis]` on a 3-d array:
append a trailing axis of size 1.  (The source only reaches this with a
3-d `x_data`; on lower ranks numpy raises before this function would be
used, which the main definition models explicitly.) -/
def newaxis_last (a : NDArray) : NDArray :=
  ⟨a.shape ++ [1], fun idx => a.val (idx.take a.ndim)⟩

/-- The feed slice `x_in = x_data[i:i+1]` (lines 236 / 255): one sample
kept as a batch of size 1. -/
def sample_slice (a : NDArray) (i : Nat) : NDArray :=
  ⟨1 :: a.shape.tail, fun idx =>
    match idx with
    | j :: rest => a.val ((i + j) :: rest)
    | [] => a.val []⟩

/-- Numpy's `np.ones(shape)` (lines 233 / 245): constant fill value 1. -/
def np_ones (shape : List Nat) : NDArray := ⟨shape, fun _ => 1⟩

/-- Slice assignment `jacobian[:, :, i] = v` on a rank-3 result array
(line 237): `v` is the session result indexed by `[j, k]`. -/
def set_slice3 (r : NDArray) (i : Nat) (v : List Nat → Rat) : NDArray :=
  ⟨r.shape, fun idx =>
    match idx with
    | [j, k, s] => if s = i then v [j, k] else r.val [j, k, s]
    | _ => r.val idx⟩

/-- Slice assignment `jacobian[:, :, :, :, i] = v` on a rank-5 result
array (line 257): `v` is indexed by `[j, a, b, c]`. -/
def set_slice5 (r : NDArray) (i : Nat) (v : List Nat → Rat) : NDArray :=
  ⟨r.shape, fun idx =>
    match idx with
    | [j, a, b, c, s] => if s = i then v [j, a, b, c] else r.val [j, a, b, c, s]
    | _ => r.val idx⟩

/-- Slice assignment `jacobian[:, :, :, 0, i] = v` on a rank-5 result
array (line 259, the mono-flag path): only channel slot 0 of sample `i`
is written; `v` is indexed by `[j, a, b]`. -/
def set_slice5_chan0 (r : NDArray) (i : Nat) (v : List Nat → Rat) : NDArray :=
  ⟨r.shape, fun idx =>
    match idx with
    | [j, a, b, c, s] =>
        if s = i then
          if c = 0 then v [j, a, b] else r.val [j, a, b, c, s]
        else r.val [j, a, b, c, s]
    | _ => r.val idx⟩

/-- Numpy's `np.mean(a, axis=-1)` (line 265): drop the last axis and
replace each cell by the arithmetic mean over the dropped axis. -/
def np_mean_last (a : NDArray) : NDArray :=
  ⟨a.shape.dropLast, fun idx =>
    ((Finset.range ((a.shape.getLast?).getD 0)).sum fun i => a.val (idx ++ [i])) /
      (((a.shape.getLast?).getD 0 : Nat) : Rat)⟩

/-- Observable effects of a `jacobian` call, in program order: the
in-place normalisation of the copied input, the `get_layer` lookups on
the keras graph, the `np.ones` output allocation, and each per-sample
`get_session().run`. -/
inductive JacEvent where
  | normalizeData : JacEvent
  | graphLookup : JacEvent
  | allocOutput : List Nat → JacEvent
  | runSample : Nat → JacEvent
deriving DecidableEq, Repr

/-- The model state `jacobian` reads: the stored normalisation
statistics, the declared input shape of the `"input"` layer (only its
length is consulted), `labels_shape`, and the session-evaluation oracle
standing for `get_session().run(final_stack, feed_dict=...)` on the
stacked symbolic gradients. -/
structure JacParams where
  input_mean : Rat
  input_std : Rat
  input_shape_expectation : List (Option Nat)
  labels_shape : Nat
  session_run : NDArray → List Nat → Rat

/-- The per-sample loop of the rank-3 branch (lines 235-237). -/
def jac_fill3 (run : NDArray → List Nat → Rat) (x3 jac0 : NDArray) : NDArray :=
  (List.range (x3.dim 0)).foldl
    (fun jac i => set_slice3 jac i (run (sample_slice x3 i))) jac0

/-- The per-sample loop of the rank-4 branch (lines 254-259): the full
slice is assigned when `monoflag` is false, only channel slot 0 when it
is true. -/
def jac_fill4 (mono : Bool) (run : NDArray → List Nat → Rat) (x4 jac0 : NDArray) :
    NDArray :=
  (List.range (x4.dim 0)).foldl
    (fun jac i =>
      if mono = false then set_slice5 jac i (run (sample_slice x4 i))
      else set_slice5_chan0 jac i (run (sample_slice x4 i))) jac0

/-- Lines 225-262 of the source: the branch on the declared input rank.
Rank 3: `atleast_3d`, allocate `np.ones((labels_shape, d1, d0))`, fill
per sample.  Rank 4: if the data has rank below 4 numpy's
`x_data[:, :, :, np.newaxis]` succeeds only on rank exactly 3 (on lower
ranks it raises `IndexError: too many indices for array`), the mono flag
is set and the filled slices are restricted to channel 0.  Any other
declared rank raises the shape-mismatch `ValueError`.  Also returns the
observable events of the branch. -/
def jacobian_core (p : JacParams) (x_data : NDArray) :
    Except String NDArray × List JacEvent :=
  if p.input_shape_expectation.length = 3 then
    let x3 := atleast_3d x_data
    let jac0 := np_ones [p.labels_shape, x3.dim 1, x3.dim 0]
    (Except.ok (jac_fill3 p.session_run x3 jac0),
     JacEvent.allocOutput jac0.shape :: (List.range (x3.dim 0)).map JacEvent.runSample)
  else if p.input_shape_expectation.length = 4 then
    if x_data.ndim < 4 then
      if x_data.ndim = 3 then
        let x4 := newaxis_last x_data
        let jac0 := np_ones [p.labels_shape, x4.dim 1, x4.dim 2, x4.dim 3, x4.dim 0]
        (Except.ok (jac_fill4 true p.session_run x4 jac0),
         JacEvent.allocOutput jac0.shape ::
           (List.range (x4.dim 0)).map JacEvent.runSample)
      else (Except.error "IndexError: too many indices for array", [])
    else
      let jac0 := np_ones
        [p.labels_shape, x_data.dim 1, x_data.dim 2, x_data.dim 3, x_data.dim 0]
      (Except.ok (jac_fill4 false p.session_run x_data jac0),
       JacEvent.allocOutput jac0.shape ::
         (List.range (x_data.dim 0)).map JacEvent.runSample)
  else (Except.error "Input data shape do not match neural network expectation", [])

/-- Lines 195-269 of the source, `NeuralNetMaster.jacobian(x, mean_output)`:
raise on a missing `x` before any other step; otherwise copy and
normalise the input, look up the declared input shape, run the branch of
`jacobian_core`, and finally collapse the sample axis by `np.mean` when
`mean_output` is true.  The second component is the trace of observable
effects, in program order. -/
def jacobian (p : JacParams) (x : Option NDArray) (mean_output : Bool) :
    Except String NDArray × List JacEvent :=
  match x with
  | none => (Except.error "Please provide data to calculate the jacobian", [])
  | some x0 =>
    let x_data := normalizeInput p.input_mean p.input_std x0
    let core := jacobian_core p x_data
    ((if mean_output then core.1.map np_mean_last else core.1),
     JacEvent.normalizeData :: JacEvent.graphLookup :: core.2)

/-- Whether a `jacobian` call produced a result array. -/
def ex_ok (r : Except String NDArray) : Bool :=
  match r with
  | Except.ok _ => true
  | Except.error _ => false

/-- The shape of a successful `jacobian` result. -/
def ex_shape (r : Except String NDArray) : Option (List Nat) :=
  match r with
  | Except.ok a => some a.shape
  | Except.error _ => none

/-- The cells of a successful `jacobian` result (junk on error). -/
def ex_val (r : Except String NDArray) : List Nat → Rat :=
  match r with
  | Except.ok a => a.val
  | Except.error _ => fun _ => 0

/-- The channel-extended data of the rank-4 branch (lines 240-243): a
trailing channel axis is appended when the data has rank below 4,
otherwise the data is used as is. -/
def chan_ext (a : NDArray) : NDArray :=
  if a.ndim < 4 then newaxis_last a else a

def p3W : JacParams := ⟨0, 1, [none, some 5, some 1], 2, fun _ _ => 0⟩

def x45W : NDArray := ⟨[4, 5], fun _ => 3⟩

def p5W : JacParams := ⟨0, 1, [none, none, none, none, none], 2, fun _ _ => 0⟩

def x23W : NDArray := ⟨[2, 3], fun _ => 1⟩

def pm4W : JacParams := ⟨0, 1, [none, some 2, some 2, some 1], 2, fun _ _ => 5⟩

def x22W : NDArray := ⟨[2, 2], fun _ => 1⟩

def x222W : NDArray := ⟨[2, 2, 2], fun _ => 3⟩

/-- A store of numpy array buffers addressed by references.  Fresh
buffers (`np.array` copies, `np.ones`, `np.mean` results) are allocated
at `next`; in-place updates write through a reference. -/
structure Heap where
  arrays : Nat → NDArray
  next : Nat

/-- Dereference a buffer. -/
def Heap.read (h : Heap) (r : Nat) : NDArray := h.arrays r

/-- Overwrite the buffer behind reference `r` in place. -/
def Heap.write (h : Heap) (r : Nat) (a : NDArray) : Heap :=
  ⟨fun s => if s = r then a else h.arrays s, h.next⟩

/-- Allocate a fresh buffer holding `a`, returning its reference. -/
def Heap.alloc (h : Heap) (a : NDArray) : Nat × Heap :=
  (h.next, ⟨fun s => if s = h.next then a else h.arrays s, h.next + 1⟩)

/-- The rank-3 per-sample loop (lines 235-237) at buffer level: each
iteration updates the result buffer `jref` in place. -/
def jac_fill3_buf (run : NDArray → List Nat → Rat) (x3 : NDArray) (jref : Nat)
    (h : Heap) : Heap :=
  (List.range (x3.dim 0)).foldl
    (fun hh i =>
      hh.write jref (set_slice3 (hh.read jref) i (run (sample_slice x3 i)))) h

/-- The rank-4 per-sample loop (lines 254-259) at buffer level. -/
def jac_fill4_buf (mono : Bool) (run : NDArray → List Nat → Rat) (x4 : NDArray)
    (jref : Nat) (h : Heap) : Heap :=
  (List.range (x4.dim 0)).foldl
    (fun hh i =>
      hh.write jref
        (if mono = false then set_slice5 (hh.read jref) i (run (sample_slice x4 i))
         else set_slice5_chan0 (hh.read jref) i (run (sample_slice x4 i)))) h

/-- The reference of the fresh copy made by `x_data = np.array(x)` on
line 212: the next free buffer slot. -/
def x_copy_ref (h : Heap) (xref : Nat) : Nat := (h.alloc (h.read xref)).1

/-- Lines 212-214 at buffer level: allocate the fresh copy of the
caller's array and normalise it in place through its own reference. -/
def jac_prep (p : JacParams) (h : Heap) (xref : Nat) : Heap :=
  ((h.alloc (h.read xref)).2).write (x_copy_ref h xref)
    (normalizeInput p.input_mean p.input_std
      (((h.alloc (h.read xref)).2).read (x_copy_ref h xref)))

/-- Lines 225-262 at buffer level: allocate the `np.ones` result buffer
and run the per-sample fill loop of the matching branch, starting from
the heap left by `jac_prep`. -/
def jacobian_buf_core (p : JacParams) (h2 : Heap) (x_data : NDArray) :
    Except String Nat × Heap :=
  if p.input_shape_expectation.length = 3 then
    let x3 := atleast_3d x_data
    let a := h2.alloc (np_ones [p.labels_shape, x3.dim 1, x3.dim 0])
    (Except.ok a.1, jac_fill3_buf p.session_run x3 a.1 a.2)
  else if p.input_shape_expectation.length = 4 then
    if x_data.ndim < 4 then
      if x_data.ndim = 3 then
        let x4 := newaxis_last x_data
        let a := h2.alloc (np_ones
          [p.labels_shape, x4.dim 1, x4.dim 2, x4.dim 3, x4.dim 0])
        (Except.ok a.1, jac_fill4_buf true p.session_run x4 a.1 a.2)
      else (Except.error "IndexError: too many indices for array", h2)
    else
      let a := h2.alloc (np_ones
        [p.labels_shape, x_data.dim 1, x_data.dim 2, x_data.dim 3, x_data.dim 0])
      (Except.ok a.1, jac_fill4_buf false p.session_run x_data a.1 a.2)
  else (Except.error "Input data shape do not match neural network expectation", h2)

/-- Buffer-level model of `NeuralNetMaster.jacobian` (lines 195-269):
`x` is a reference to the caller's array.  `x_data = np.array(x)`
(line 212) allocates a fresh copy, the in-place `-=` and `/=`
(lines 213-214) write through that fresh reference only, the per-sample
loops write through the reference of the freshly allocated `np.ones`
result buffer, and `np.mean` (line 265) allocates a new buffer.  Returns
the reference of the result buffer. -/
def jacobian_buf (p : JacParams) (h : Heap) (x : Option Nat) (mean_output : Bool) :
    Except String Nat × Heap :=
  match x with
  | none => (Except.error "Please provide data to calculate the jacobian", h)
  | some xref =>
    let h2 := jac_prep p h xref
    let core := jacobian_buf_core p h2 (h2.read (x_copy_ref h xref))
    match core.1 with
    | Except.error e => (Except.error e, core.2)
    | Except.ok jref =>
      if mean_output then
        (Except.ok (core.2.alloc (np_mean_last (core.2.read jref))).1,
         (core.2.alloc (np_mean_last (core.2.read jref))).2)
      else (Except.ok jref, core.2)

def pb3W : JacParams := ⟨0, 1, [none, some 3, some 1], 1, fun _ _ => 2⟩

def heapW : Heap := ⟨fun _ => ⟨[2, 3], fun _ => 7⟩, 1⟩

/-- A Python-side shape value as stored by the checklist: the source
stores a plain int for rank-1/2 labels and a tuple otherwise
(lines 113-130). -/
inductive PyShape where
  | int : Nat → PyShape
  | tup : List Nat → PyShape
deriving DecidableEq, Repr

/-- The fields of the model instance touched by
`pre_training_checklist_master` (lines 105-132): the validation split
settings and the inferred shapes; `none` models Python `None`. -/
structure TrainState where
  val_size : Option Rat
  val_num : Option Int
  num_train : Option Int
  input_shape : Option PyShape
  labels_shape : Option PyShape
deriving Repr

/-- Python's `int()` conversion applied to a float: truncation toward
zero (line 108, `int(input_data.shape[0] * self.val_size)`). -/
def pyInt (q : Rat) : Int := if 0 ≤ q then ⌊q⌋ else ⌈q⌉

/-- Lines 105-132 of the source, `pre_training_checklist_master`: default
the unset `val_size` to 0, compute the validation/training split from the
row count (`input_data.shape[0]`, an IndexError on a 0-d array), and, only
when `input_shape` is still unset, infer `input_shape` and `labels_shape`
from the ranks of the two arrays; ranks outside 1-4 match no branch and
leave the corresponding field as it was. -/
def pre_training_checklist_master (s : TrainState) (input_data labels : NDArray) :
    Except String TrainState :=
  match input_data.shape.head? with
  | none => Except.error "IndexError: tuple index out of range"
  | some rows =>
    if s.input_shape = none then
      Except.ok
        { val_size := some ((s.val_size).getD 0)
          val_num := some (pyInt ((rows : Rat) * (s.val_size).getD 0))
          num_train := some ((rows : Int) - pyInt ((rows : Rat) * (s.val_size).getD 0))
          input_shape :=
            if input_data.ndim = 1 then some (PyShape.tup [1, 1])
            else if input_data.ndim = 2 then some (PyShape.tup [input_data.dim 1, 1])
            else if input_data.ndim = 3 then
              some (PyShape.tup [input_data.dim 1, input_data.dim 2, 1])
            else if input_data.ndim = 4 then
              some (PyShape.tup [input_data.dim 1, input_data.dim 2, input_data.dim 3])
            else s.input_shape
          labels_shape :=
            if labels.ndim = 1 then some (PyShape.int 1)
            else if labels.ndim = 2 then some (PyShape.int (labels.dim 1))
            else if labels.ndim = 3 then
              some (PyShape.tup [labels.dim 1, labels.dim 2])
            else if labels.ndim = 4 then
              some (PyShape.tup [labels.dim 1, labels.dim 2, labels.dim 3])
            else s.labels_shape }
    else
      Except.ok
        { s with
          val_size := some ((s.val_size).getD 0)
          val_num := some (pyInt ((rows : Rat) * (s.val_size).getD 0))
          num_train := some ((rows : Int) - pyInt ((rows : Rat) * (s.val_size).getD 0)) }

/-- Whether the checklist call completed without raising. -/
def checklist_ok (r : Except String TrainState) : Bool :=
  match r with
  | Except.ok _ => true
  | Except.error _ => false

/-- The `input_shape` field after a successful checklist call. -/
def checklist_input_shape (r : Except String TrainState) : Option PyShape :=
  match r with
  | Except.ok t => t.input_shape
  | Except.error _ => none

/-- The `labels_shape` field after a successful checklist call. -/
def checklist_labels_shape (r : Except String TrainState) : Option PyShape :=
  match r with
  | Except.ok t => t.labels_shape
  | Except.error _ => none

/-- The `val_num` field after a successful checklist call. -/
def checklist_val_num (r : Except String TrainState) : Option Int :=
  match r with
  | Except.ok t => t.val_num
  | Except.error _ => none

/-- The `num_train` field after a successful checklist call. -/
def checklist_num_train (r : Except String TrainState) : Option Int :=
  match r with
  | Except.ok t => t.num_train
  | Except.error _ => none

def s0W : TrainState := ⟨none, none, none, none, none⟩

def inW : NDArray := ⟨[7, 3], fun _ => 1⟩

def labW : NDArray := ⟨[7, 4], fun _ => 1⟩

def in5W : NDArray := ⟨[2, 2, 2, 2, 2], fun _ => 0⟩

def in0W : NDArray := ⟨[], fun _ => 0⟩

def s8W : TrainState := ⟨some (3 / 10 : Rat), none, none, none, none⟩

/-- The already-formatted field values interpolated into the
hyperparameter file by `save` (lines 160-176): each Python f-string
`f"Key: {value} \n"` embeds `str(value)`, modelled as a string field. -/
structure RunInfo where
  name : String
  model_type : String
  identifier : String
  python_info : String
  astronn_ver : String
  keras_ver : String
  tf_ver : String
  folder_name : String
  batch_size : String
  optimizer_name : String
  max_epochs : String
  lr : String
  val_size : String
  input_shape : String
  labels_shape : String
  num_train : String
  val_num : String

/-- Lines 140-146 of `save`: resolve the run folder.  An auto-generated
run-numbered folder is used only when both the stored `folder_name` and
the `name` argument are unset; an explicit `name` always wins; otherwise
the stored folder is kept. -/
def resolve_folder (folder_name : Option String) (name : Option String)
    (auto : String) : Option String :=
  match folder_name, name with
  | none, none => some auto
  | f, none => f
  | _, some n => some n

/-- Lines 160-176 of `save`: the fixed ordered key/value lines of one
run, exactly as written by the seventeen `hyper_txt.write` calls. -/
def hyper_text (c : RunInfo) : String :=
  "Model: " ++ c.name ++ " \n" ++
  "Model Type: " ++ c.model_type ++ " \n" ++
  "astroNN identifier: " ++ c.identifier ++ " \n" ++
  "Python Version: " ++ c.python_info ++ " \n" ++
  "astroNN Version: " ++ c.astronn_ver ++ " \n" ++
  "Keras Version: " ++ c.keras_ver ++ " \n" ++
  "Tensorflow Version: " ++ c.tf_ver ++ " \n" ++
  "Folder Name: " ++ c.folder_name ++ " \n" ++
  "Batch size: " ++ c.batch_size ++ " \n" ++
  "Optimizer: " ++ c.optimizer_name ++ " \n" ++
  "Maximum Epochs: " ++ c.max_epochs ++ " \n" ++
  "Learning Rate: " ++ c.lr ++ " \n" ++
  "Validation Size: " ++ c.val_size ++ " \n" ++
  "Input Shape: " ++ c.input_shape ++ " \n" ++
  "Label Shape: " ++ c.labels_shape ++ " \n" ++
  "Number of Training Data: " ++ c.num_train ++ " \n" ++
  "Number of Validation Data: " ++ c.val_num ++ " \n"

/-- Lines 153-176 of `save`: the content of `hyperparameter.txt` after
one `save` call.  `existing` is the file's prior content when the file
already exists in the resolved folder (`os.path.isfile`), `none` when it
does not.  An existing file is opened in append mode and receives a
newline, the `======Another Run======` separator marker, and then the
run's key/value lines; a fresh file receives just the run's lines. -/
def save_hyperfile (existing : Option String) (c : RunInfo) : String :=
  match existing with
  | some content => content ++ "\n" ++ "======Another Run======" ++ hyper_text c
  | none => hyper_text c

lemma jacobian_some_fst_false (p : JacParams) (x : NDArray) :
    (jacobian p (some x) false).1 =
      (jacobian_core p (normalizeInput p.input_mean p.input_std x)).1 := rfl

lemma jacobian_some_fst_true (p : JacParams) (x : NDArray) :
    (jacobian p (some x) true).1 =
      ((jacobian_core p (normalizeInput p.input_mean p.input_std x)).1).map
        np_mean_last := rfl

lemma jacobian_core_len3 (p : JacParams) (xd : NDArray)
    (h : p.input_shape_expectation.length = 3) :
    jacobian_core p xd =
      (Except.ok (jac_fill3 p.session_run (atleast_3d xd)
         (np_ones [p.labels_shape, (atleast_3d xd).dim 1, (atleast_3d xd).dim 0])),
       JacEvent.allocOutput
           [p.labels_shape, (atleast_3d xd).dim 1, (atleast_3d xd).dim 0] ::
         (List.range ((atleast_3d xd).dim 0)).map JacEvent.runSample) := by
  unfold jacobian_core
  rw [if_pos h]
  rfl

lemma jacobian_core_len4_mono (p : JacParams) (xd : NDArray)
    (h4 : p.input_shape_expectation.length = 4) (hn : xd.ndim = 3) :
    jacobian_core p xd =
      (Except.ok (jac_fill4 true p.session_run (newaxis_last xd)
         (np_ones [p.labels_shape, (newaxis_last xd).dim 1, (newaxis_last xd).dim 2,
                   (newaxis_last xd).dim 3, (newaxis_last xd).dim 0])),
       JacEvent.allocOutput
           [p.labels_shape, (newaxis_last xd).dim 1, (newaxis_last xd).dim 2,
            (newaxis_last xd).dim 3, (newaxis_last xd).dim 0] ::
         (List.range ((newaxis_last xd).dim 0)).map JacEvent.runSample) := by
  unfold jacobian_core
  rw [if_neg (by omega), if_pos h4, if_pos (by omega), if_pos hn]
  rfl

lemma jacobian_core_len4_full (p : JacParams) (xd : NDArray)
    (h4 : p.input_shape_expectation.length = 4) (hge : 4 ≤ xd.ndim) :
    jacobian_core p xd =
      (Except.ok (jac_fill4 false p.session_run xd
         (np_ones [p.labels_shape, xd.dim 1, xd.dim 2, xd.dim 3, xd.dim 0])),
       JacEvent.allocOutput [p.labels_shape, xd.dim 1, xd.dim 2, xd.dim 3, xd.dim 0] ::
         (List.range (xd.dim 0)).map JacEvent.runSample) := by
  unfold jacobian_core
  rw [if_neg (by omega), if_pos h4, if_neg (by omega)]
  rfl

lemma jacobian_core_len4_err (p : JacParams) (xd : NDArray)
    (h4 : p.input_shape_expectation.length = 4) (hlt : xd.ndim < 4)
    (hn : xd.ndim ≠ 3) :
    jacobian_core p xd =
      (Except.error "IndexError: too many indices for array", []) := by
  unfold jacobian_core
  rw [if_neg (by omega), if_pos h4, if_pos hlt, if_neg hn]

lemma jacobian_core_mismatch (p : JacParams) (xd : NDArray)
    (h3 : p.input_shape_expectation.length ≠ 3)
    (h4 : p.input_shape_expectation.length ≠ 4) :
    jacobian_core p xd =
      (Except.error "Input data shape do not match neural network expectation", []) := by
  unfold jacobian_core
  rw [if_neg h3, if_neg h4]

lemma foldl_preserve {α : Type} (f : NDArray → α → NDArray) (P : NDArray → Prop)
    (hf : ∀ a i, P a → P (f a i)) :
    ∀ (l : List α) (a : NDArray), P a → P (l.foldl f a) := by
  intro l
  induction l with
  | nil => intro a ha; exact ha
  | cons x xs ih => intro a ha; exact ih (f a x) (hf a x ha)

lemma jac_fill3_shape (run : NDArray → List Nat → Rat) (x3 jac0 : NDArray) :
    (jac_fill3 run x3 jac0).shape = jac0.shape := by
  unfold jac_fill3
  refine foldl_preserve (fun jac i => set_slice3 jac i (run (sample_slice x3 i)))
    (fun a => a.shape = jac0.shape) ?_ _ _ rfl
  intro a i ha
  exact ha

lemma jac_fill4_shape (mono : Bool) (run : NDArray → List Nat → Rat)
    (x4 jac0 : NDArray) :
    (jac_fill4 mono run x4 jac0).shape = jac0.shape := by
  unfold jac_fill4
  refine foldl_preserve _ (fun a => a.shape = jac0.shape) ?_ _ _ rfl
  intro a i ha
  by_cases hm : mono = false
  · rw [if_pos hm]; exact ha
  · rw [if_neg hm]; exact ha

lemma ndim3_shape (a : NDArray) (h : a.ndim = 3) :
    ∃ d1 d2 d3, a.shape = [d1, d2, d3] := by
  obtain ⟨sh, v⟩ := a
  simp only [NDArray.ndim] at h
  match sh, h with
  | [d1, d2, d3], _ => exact ⟨d1, d2, d3, rfl⟩

lemma atleast_3d_dim0 (a : NDArray) (h : 2 ≤ a.ndim) :
    (atleast_3d a).dim 0 = a.dim 0 := by
  obtain ⟨sh, v⟩ := a
  simp only [NDArray.ndim] at h
  match sh, h with
  | m :: n :: t, _ =>
    cases t with
    | nil => rfl
    | cons k t2 => rfl

lemma atleast_3d_dim0_small (a : NDArray) (h : a.ndim ≤ 1) :
    (atleast_3d a).dim 0 = 1 := by
  obtain ⟨sh, v⟩ := a
  simp only [NDArray.ndim] at h
  match sh, h with
  | [], _ => rfl
  | [n], _ => rfl

/-- C1: for every `jacobian(x, mean_output=False)` call that returns, the
result has shape `(labels_shape, feature_dim, sample_count)` when the
declared input rank is 3 and `(labels_shape, d1, d2, d3, sample_count)`
when it is 4; the spatial dimensions are those of the channel-extended
normalised input and the sample count equals the number of rows of `x`
(the first axis for data of rank at least 2, and the single row of a
rank-at-most-1 row vector in the rank-3 branch). -/
theorem jacobian_result_shape (p : JacParams) (x : NDArray)
    (hok : ex_ok (jacobian p (some x) false).1 = true) :
    (p.input_shape_expectation.length = 3 →
      ex_shape (jacobian p (some x) false).1 =
        some [p.labels_shape,
          (atleast_3d (normalizeInput p.input_mean p.input_std x)).dim 1,
          (atleast_3d (normalizeInput p.input_mean p.input_std x)).dim 0] ∧
      (2 ≤ x.ndim →
        (atleast_3d (normalizeInput p.input_mean p.input_std x)).dim 0 = x.dim 0) ∧
      (x.ndim ≤ 1 →
        (atleast_3d (normalizeInput p.input_mean p.input_std x)).dim 0 = 1)) ∧
    (p.input_shape_expectation.length = 4 →
      ex_shape (jacobian p (some x) false).1 =
        some [p.labels_shape,
          (chan_ext (normalizeInput p.input_mean p.input_std x)).dim 1,
          (chan_ext (normalizeInput p.input_mean p.input_std x)).dim 2,
          (chan_ext (normalizeInput p.input_mean p.input_std x)).dim 3,
          (chan_ext (normalizeInput p.input_mean p.input_std x)).dim 0] ∧
      (chan_ext (normalizeInput p.input_mean p.input_std x)).dim 0 = x.dim 0) := by
  constructor
  · intro h3
    rw [jacobian_some_fst_false] at hok ⊢
    rw [jacobian_core_len3 p _ h3]
    refine ⟨?_, ?_, ?_⟩
    · show some (jac_fill3 _ _ _).shape = _
      rw [jac_fill3_shape]
      rfl
    · intro h2
      exact atleast_3d_dim0 _ h2
    · intro h1
      exact atleast_3d_dim0_small _ h1
  · intro h4
    rw [jacobian_some_fst_false] at hok ⊢
    set xd := normalizeInput p.input_mean p.input_std x with hxd
    by_cases hlt : xd.ndim < 4
    · by_cases hn : xd.ndim = 3
      · rw [jacobian_core_len4_mono p xd h4 hn]
        have hx3 : x.ndim = 3 := hn
        obtain ⟨d1, d2, d3, hs⟩ := ndim3_shape x hx3
        have hxds : xd.shape = [d1, d2, d3] := hs
        have hce : chan_ext xd = newaxis_last xd := by
          unfold chan_ext
          rw [if_pos hlt]
        constructor
        · show some (jac_fill4 _ _ _ _).shape = _
          rw [jac_fill4_shape, hce]
          rfl
        · rw [hce]
          show (xd.shape ++ [1]).getD 0 0 = x.shape.getD 0 0
          rw [hxds]
          have : x.shape.getD 0 0 = d1 := by rw [hs]; rfl
          rw [this]
          rfl
      · rw [jacobian_core_len4_err p xd h4 hlt hn] at hok
        simp [ex_ok] at hok
    · rw [jacobian_core_len4_full p xd h4 (by omega)]
      have hce : chan_ext xd = xd := by
        unfold chan_ext
        rw [if_neg hlt]
      constructor
      · show some (jac_fill4 _ _ _ _).shape = _
        rw [jac_fill4_shape, hce]
        rfl
      · rw [hce]
        rfl

/-- C2: `jacobian(x, mean_output=True)` equals the elementwise
arithmetic mean over the last (sample) axis of
`jacobian(x, mean_output=False)`: the two calls are related by
`np_mean_last`, which drops the last axis and averages over it. -/
theorem jacobian_mean_output (p : JacParams) (x : Option NDArray) :
    (jacobian p x true).1 = ((jacobian p x false).1).map np_mean_last ∧
    ∀ a : NDArray,
      (np_mean_last a).shape = a.shape.dropLast ∧
      ∀ idx : List Nat,
        (np_mean_last a).val idx =
          ((Finset.range ((a.shape.getLast?).getD 0)).sum fun i =>
              a.val (idx ++ [i])) /
            (((a.shape.getLast?).getD 0 : Nat) : Rat) := by
  constructor
  · cases x with
    | none => rfl
    | some x0 => rfl
  · intro a
    exact ⟨rfl, fun idx => rfl⟩

/-- C3: calling `jacobian` with no input raises the value error
immediately: the result is the documented error and the effect trace is
empty, so no normalisation, graph lookup, or output allocation has
happened. -/
theorem jacobian_none_input (p : JacParams) (mo : Bool) :
    jacobian p none mo =
      (Except.error "Please provide data to calculate the jacobian",
       ([] : List JacEvent)) := rfl

/-- C4: when the declared input rank is neither 3 nor 4, `jacobian`
raises the documented shape-mismatch value error, and the effect trace
contains no output allocation and no session evaluation: only the
normalisation of the private copy and the graph lookup preceding the
branch have happened. -/
theorem jacobian_bad_rank (p : JacParams) (x : NDArray) (mo : Bool)
    (h3 : p.input_shape_expectation.length ≠ 3)
    (h4 : p.input_shape_expectation.length ≠ 4) :
    jacobian p (some x) mo =
      (Except.error "Input data shape do not match neural network expectation",
       [JacEvent.normalizeData, JacEvent.graphLookup]) := by
  simp only [jacobian]
  rw [jacobian_core_mismatch p _ h3 h4]
  cases mo <;> rfl

lemma set_slice5_chan0_val (r : NDArray) (iP : Nat) (v : List Nat → Rat)
    (j a b c s : Nat) :
    (set_slice5_chan0 r iP v).val [j, a, b, c, s] =
      if s = iP then (if c = 0 then v [j, a, b] else r.val [j, a, b, c, s])
      else r.val [j, a, b, c, s] := rfl

lemma jac_fill4_true_eq (run : NDArray → List Nat → Rat) (x4 jac0 : NDArray) :
    jac_fill4 true run x4 jac0 =
      (List.range (x4.dim 0)).foldl
        (fun jac s => set_slice5_chan0 jac s (run (sample_slice x4 s))) jac0 := rfl

lemma chan0_foldl_notin (run : NDArray → List Nat → Rat) (x4 : NDArray)
    (j a b c i : Nat) :
    ∀ (l : List Nat) (r : NDArray), i ∉ l →
      ((l.foldl (fun jac s => set_slice5_chan0 jac s (run (sample_slice x4 s))) r).val
          [j, a, b, c, i] = r.val [j, a, b, c, i]) := by
  intro l
  induction l with
  | nil => intro r _; rfl
  | cons s t ih =>
    intro r hni
    have hne : i ≠ s := fun he => hni (he ▸ List.mem_cons_self s t)
    have hnt : i ∉ t := fun ht => hni (List.mem_cons_of_mem s ht)
    rw [List.foldl_cons, ih _ hnt, set_slice5_chan0_val, if_neg hne]

lemma chan0_foldl_mem (run : NDArray → List Nat → Rat) (x4 : NDArray)
    (j a b i : Nat) :
    ∀ (l : List Nat) (r : NDArray), i ∈ l → l.Nodup →
      ((l.foldl (fun jac s => set_slice5_chan0 jac s (run (sample_slice x4 s))) r).val
          [j, a, b, 0, i] = run (sample_slice x4 i) [j, a, b]) := by
  intro l
  induction l with
  | nil => intro r hmem _; exact absurd hmem (List.not_mem_nil i)
  | cons s t ih =>
    intro r hmem hnd
    rw [List.foldl_cons]
    rcases List.mem_cons.mp hmem with he | ht
    · subst he
      have hnt : i ∉ t := (List.nodup_cons.mp hnd).1
      rw [chan0_foldl_notin run x4 j a b 0 i t _ hnt, set_slice5_chan0_val,
        if_pos rfl, if_pos rfl]
    · exact ih _ ht (List.nodup_cons.mp hnd).2

lemma jac_fill4_mono_written (run : NDArray → List Nat → Rat) (x4 jac0 : NDArray)
    (j a b i : Nat) (hi : i < x4.dim 0) :
    (jac_fill4 true run x4 jac0).val [j, a, b, 0, i] =
      run (sample_slice x4 i) [j, a, b] := by
  rw [jac_fill4_true_eq]
  exact chan0_foldl_mem run x4 j a b i _ jac0 (List.mem_range.mpr hi)
    (List.nodup_range _)

lemma jac_fill4_mono_untouched (run : NDArray → List Nat → Rat) (x4 jac0 : NDArray)
    (j a b c i : Nat) (hc : c ≠ 0) :
    (jac_fill4 true run x4 jac0).val [j, a, b, c, i] = jac0.val [j, a, b, c, i] := by
  rw [jac_fill4_true_eq]
  refine foldl_preserve (fun jac s => set_slice5_chan0 jac s (run (sample_slice x4 s)))
    (fun r => r.val [j, a, b, c, i] = jac0.val [j, a, b, c, i]) ?_ _ _ rfl
  intro r s hr
  rw [set_slice5_chan0_val]
  by_cases his : i = s
  · rw [if_pos his, if_neg hc]; exact hr
  · rw [if_neg his]; exact hr

lemma newaxis_dim3 (a : NDArray) (h : a.ndim = 3) : (newaxis_last a).dim 3 = 1 := by
  obtain ⟨d1, d2, d3, hs⟩ := ndim3_shape a h
  show (a.shape ++ [1]).getD 3 0 = 1
  rw [hs]
  rfl

/-- C5 (amended): for a model declaring a rank-4 input and supplied data
of rank exactly 3 (the only below-4 rank the source handles; lower ranks
make `x_data[:, :, :, np.newaxis]` raise an IndexError), a trailing
channel axis of size 1 is inserted before evaluation, so the result's
channel axis has size 1; per sample only channel slot 0 receives the
session gradient and every other channel slot of the raw result array
keeps the `np.ones` fill value 1. -/
theorem jacobian_mono_channel (p : JacParams) (x : NDArray)
    (h4 : p.input_shape_expectation.length = 4)
    (h3 : x.ndim = 3) :
    (ex_shape (jacobian p (some x) false).1 =
       some [p.labels_shape,
         (newaxis_last (normalizeInput p.input_mean p.input_std x)).dim 1,
         (newaxis_last (normalizeInput p.input_mean p.input_std x)).dim 2,
         (newaxis_last (normalizeInput p.input_mean p.input_std x)).dim 3,
         (newaxis_last (normalizeInput p.input_mean p.input_std x)).dim 0] ∧
     (newaxis_last (normalizeInput p.input_mean p.input_std x)).dim 3 = 1) ∧
    (∀ j a b c i : Nat, c ≠ 0 →
      ex_val (jacobian p (some x) false).1 [j, a, b, c, i] = 1) ∧
    (∀ j a b i : Nat,
      i < (newaxis_last (normalizeInput p.input_mean p.input_std x)).dim 0 →
      ex_val (jacobian p (some x) false).1 [j, a, b, 0, i] =
        p.session_run
          (sample_slice (newaxis_last (normalizeInput p.input_mean p.input_std x)) i)
          [j, a, b]) := by
  have hxd3 : (normalizeInput p.input_mean p.input_std x).ndim = 3 := h3
  rw [jacobian_some_fst_false, jacobian_core_len4_mono p _ h4 hxd3]
  refine ⟨⟨?_, newaxis_dim3 _ hxd3⟩, ?_, ?_⟩
  · show some (jac_fill4 _ _ _ _).shape = _
    rw [jac_fill4_shape]
    rfl
  · intro j a b c i hc
    show (jac_fill4 true _ _ _).val [j, a, b, c, i] = 1
    rw [jac_fill4_mono_untouched _ _ _ j a b c i hc]
    rfl
  · intro j a b i hi
    exact jac_fill4_mono_written _ _ _ j a b i hi

theorem jacobian_result_shape_witness :
    ex_shape (jacobian p3W (some x45W) false).1 = some [2, 5, 4] ∧
    (atleast_3d (normalizeInput p3W.input_mean p3W.input_std x45W)).dim 0 =
      x45W.dim 0 := by
  have h := jacobian_result_shape p3W x45W (by decide)
  exact ⟨((h.1 rfl).1).trans rfl, (h.1 rfl).2.1 (by decide)⟩

theorem jacobian_bad_rank_witness :
    jacobian p5W (some x23W) false =
      (Except.error "Input data shape do not match neural network expectation",
       [JacEvent.normalizeData, JacEvent.graphLookup]) :=
  jacobian_bad_rank p5W x23W false (by decide) (by decide)

/-- C5 counterexample: for a model declaring a rank-4 input and supplied
data of rank 2 (which is below 4), no trailing channel axis is inserted
and no gradients are written into any result: the call fails with
numpy's IndexError from `x_data[:, :, :, np.newaxis]`, so the claim's
guarantee for every rank below 4 is false at this input. -/
theorem jacobian_mono_rank2_fails :
    (jacobian pm4W (some x22W) false).1 =
      Except.error "IndexError: too many indices for array" := rfl

theorem jacobian_mono_channel_witness :
    ex_val (jacobian pm4W (some x222W) false).1 [0, 0, 0, 1, 0] = 1 ∧
    ex_val (jacobian pm4W (some x222W) false).1 [0, 0, 0, 0, 1] = 5 := by
  have h := jacobian_mono_channel pm4W x222W rfl rfl
  exact ⟨h.2.1 0 0 0 1 0 (by decide), (h.2.2 0 0 0 1 (by decide)).trans rfl⟩

lemma read_write_ne (h : Heap) (r s : Nat) (a : NDArray) (hne : r ≠ s) :
    (h.write s a).read r = h.read r := by
  show (if r = s then a else h.arrays r) = h.arrays r
  rw [if_neg hne]

lemma read_alloc_lt (h : Heap) (a : NDArray) (r : Nat) (hr : r < h.next) :
    ((h.alloc a).2).read r = h.read r := by
  show (if r = h.next then a else h.arrays r) = h.arrays r
  rw [if_neg (by omega)]

lemma foldl_heap_write {α : Type} (jref : Nat) (g : Heap → α → NDArray) :
    ∀ (l : List α) (h : Heap) (r : Nat), r ≠ jref →
      ((l.foldl (fun hh i => hh.write jref (g hh i)) h).read r = h.read r) ∧
      (l.foldl (fun hh i => hh.write jref (g hh i)) h).next = h.next := by
  intro l
  induction l with
  | nil => intro h r _; exact ⟨rfl, rfl⟩
  | cons s t ih =>
    intro h r hne
    rw [List.foldl_cons]
    refine ⟨?_, ?_⟩
    · rw [(ih _ r hne).1]
      exact read_write_ne _ r jref _ hne
    · rw [(ih _ r hne).2]
      rfl

lemma jac_fill3_buf_read_ne (run : NDArray → List Nat → Rat) (x3 : NDArray)
    (jref : Nat) (h : Heap) (r : Nat) (hne : r ≠ jref) :
    (jac_fill3_buf run x3 jref h).read r = h.read r := by
  unfold jac_fill3_buf
  exact (foldl_heap_write jref
    (fun hh i => set_slice3 (hh.read jref) i (run (sample_slice x3 i))) _ h r hne).1

lemma jac_fill3_buf_next (run : NDArray → List Nat → Rat) (x3 : NDArray)
    (jref : Nat) (h : Heap) :
    (jac_fill3_buf run x3 jref h).next = h.next := by
  unfold jac_fill3_buf
  exact (foldl_heap_write jref
    (fun hh i => set_slice3 (hh.read jref) i (run (sample_slice x3 i))) _ h (jref + 1)
    (by omega)).2

lemma jac_fill4_buf_read_ne (mono : Bool) (run : NDArray → List Nat → Rat)
    (x4 : NDArray) (jref : Nat) (h : Heap) (r : Nat) (hne : r ≠ jref) :
    (jac_fill4_buf mono run x4 jref h).read r = h.read r := by
  unfold jac_fill4_buf
  exact (foldl_heap_write jref
    (fun hh i =>
      if mono = false then set_slice5 (hh.read jref) i (run (sample_slice x4 i))
      else set_slice5_chan0 (hh.read jref) i (run (sample_slice x4 i)))
    _ h r hne).1

lemma jac_fill4_buf_next (mono : Bool) (run : NDArray → List Nat → Rat)
    (x4 : NDArray) (jref : Nat) (h : Heap) :
    (jac_fill4_buf mono run x4 jref h).next = h.next := by
  unfold jac_fill4_buf
  exact (foldl_heap_write jref
    (fun hh i =>
      if mono = false then set_slice5 (hh.read jref) i (run (sample_slice x4 i))
      else set_slice5_chan0 (hh.read jref) i (run (sample_slice x4 i)))
    _ h (jref + 1) (by omega)).2

lemma alloc_fst (h : Heap) (a : NDArray) : (h.alloc a).1 = h.next := rfl

lemma alloc_snd_next (h : Heap) (a : NDArray) : ((h.alloc a).2).next = h.next + 1 := rfl

lemma jac_prep_next (p : JacParams) (h : Heap) (xref : Nat) :
    (jac_prep p h xref).next = h.next + 1 := rfl

lemma jac_prep_read_lt (p : JacParams) (h : Heap) (xref r : Nat) (hr : r < h.next) :
    (jac_prep p h xref).read r = h.read r := by
  unfold jac_prep x_copy_ref
  rw [alloc_fst, read_write_ne _ _ _ _ (by omega : r ≠ h.next)]
  exact read_alloc_lt _ _ _ hr

lemma jacobian_buf_core_frame (p : JacParams) (h2 : Heap) (xd : NDArray) (r : Nat)
    (hr : r < h2.next) :
    ((jacobian_buf_core p h2 xd).2).read r = h2.read r ∧
      h2.next ≤ ((jacobian_buf_core p h2 xd).2).next := by
  unfold jacobian_buf_core
  by_cases hl3 : p.input_shape_expectation.length = 3
  · rw [if_pos hl3]
    simp only [alloc_fst]
    constructor
    · rw [jac_fill3_buf_read_ne _ _ _ _ _ (by omega : r ≠ h2.next)]
      exact read_alloc_lt _ _ _ hr
    · rw [jac_fill3_buf_next, alloc_snd_next]
      omega
  · rw [if_neg hl3]
    by_cases hl4 : p.input_shape_expectation.length = 4
    · rw [if_pos hl4]
      by_cases hlt : xd.ndim < 4
      · rw [if_pos hlt]
        by_cases hn3 : xd.ndim = 3
        · rw [if_pos hn3]
          simp only [alloc_fst]
          constructor
          · rw [jac_fill4_buf_read_ne _ _ _ _ _ _ (by omega : r ≠ h2.next)]
            exact read_alloc_lt _ _ _ hr
          · rw [jac_fill4_buf_next, alloc_snd_next]
            omega
        · rw [if_neg hn3]
          exact ⟨rfl, Nat.le_refl _⟩
      · rw [if_neg hlt]
        simp only [alloc_fst]
        constructor
        · rw [jac_fill4_buf_read_ne _ _ _ _ _ _ (by omega : r ≠ h2.next)]
          exact read_alloc_lt _ _ _ hr
        · rw [jac_fill4_buf_next, alloc_snd_next]
          omega
    · rw [if_neg hl4]
      exact ⟨rfl, Nat.le_refl _⟩

/-- C10: `jacobian` never mutates the caller's input array: the input is
copied into a fresh buffer (`np.array(x)`, line 212) before the in-place
mean-subtraction and std-division, and every later write targets a
freshly allocated buffer, so after every call the caller's array holds
the same values as before it. -/
theorem jacobian_no_input_mutation (p : JacParams) (h : Heap) (xref : Nat)
    (mean_output : Bool) (hx : xref < h.next) :
    ((jacobian_buf p h (some xref) mean_output).2).read xref = h.read xref := by
  have hprep : (jac_prep p h xref).read xref = h.read xref :=
    jac_prep_read_lt p h xref xref hx
  have hx2 : xref < (jac_prep p h xref).next := by
    rw [jac_prep_next]; omega
  have hcore := jacobian_buf_core_frame p (jac_prep p h xref)
    ((jac_prep p h xref).read (x_copy_ref h xref)) xref hx2
  simp only [jacobian_buf]
  rcases hcm : (jacobian_buf_core p (jac_prep p h xref)
      ((jac_prep p h xref).read (x_copy_ref h xref))).1 with e | jref
  · exact hcore.1.trans hprep
  · cases mean_output with
    | false => exact hcore.1.trans hprep
    | true =>
      have hle := hcore.2
      have hx3 : xref < ((jacobian_buf_core p (jac_prep p h xref)
          ((jac_prep p h xref).read (x_copy_ref h xref))).2).next := by
        omega
      exact (read_alloc_lt _ _ _ hx3).trans (hcore.1.trans hprep)

theorem jacobian_no_input_mutation_witness :
    ((jacobian_buf pb3W heapW (some 0) false).2).read 0 = heapW.read 0 :=
  jacobian_no_input_mutation pb3W heapW 0 false (by decide)

lemma pre_ok_form (s : TrainState) (input labels : NDArray) (rows : Nat)
    (t : List Nat) (hs : input.shape = rows :: t) (h0 : s.input_shape = none) :
    pre_training_checklist_master s input labels =
      Except.ok
        { val_size := some ((s.val_size).getD 0)
          val_num := some (pyInt ((rows : Rat) * (s.val_size).getD 0))
          num_train := some ((rows : Int) - pyInt ((rows : Rat) * (s.val_size).getD 0))
          input_shape :=
            if input.ndim = 1 then some (PyShape.tup [1, 1])
            else if input.ndim = 2 then some (PyShape.tup [input.dim 1, 1])
            else if input.ndim = 3 then
              some (PyShape.tup [input.dim 1, input.dim 2, 1])
            else if input.ndim = 4 then
              some (PyShape.tup [input.dim 1, input.dim 2, input.dim 3])
            else s.input_shape
          labels_shape :=
            if labels.ndim = 1 then some (PyShape.int 1)
            else if labels.ndim = 2 then some (PyShape.int (labels.dim 1))
            else if labels.ndim = 3 then
              some (PyShape.tup [labels.dim 1, labels.dim 2])
            else if labels.ndim = 4 then
              some (PyShape.tup [labels.dim 1, labels.dim 2, labels.dim 3])
            else s.labels_shape } := by
  unfold pre_training_checklist_master
  split
  · rename_i heq
    rw [hs, List.head?_cons] at heq
    cases heq
  · rename_i rows2 heq
    rw [hs, List.head?_cons] at heq
    injection heq with h2
    subst h2
    rw [if_pos h0]

lemma pre_ok_form2 (s : TrainState) (input labels : NDArray) (rows : Nat)
    (t : List Nat) (hs : input.shape = rows :: t) (h0 : ¬s.input_shape = none) :
    pre_training_checklist_master s input labels =
      Except.ok
        { s with
          val_size := some ((s.val_size).getD 0)
          val_num := some (pyInt ((rows : Rat) * (s.val_size).getD 0))
          num_train :=
            some ((rows : Int) - pyInt ((rows : Rat) * (s.val_size).getD 0)) } := by
  unfold pre_training_checklist_master
  split
  · rename_i heq
    rw [hs, List.head?_cons] at heq
    cases heq
  · rename_i rows2 heq
    rw [hs, List.head?_cons] at heq
    injection heq with h2
    subst h2
    rw [if_neg h0]

lemma one_le_ndim_shape (a : NDArray) (h : 1 ≤ a.ndim) :
    ∃ rows t, a.shape = rows :: t := by
  cases hsh : a.shape with
  | nil => rw [NDArray.ndim, hsh] at h; simp at h
  | cons x l => exact ⟨x, l, rfl⟩

/-- C6: with `input_shape` unset, the checklist infers `input_shape` from
the input's rank as `(1,1)`, `(cols,1)`, `(d1,d2,1)`, `(d1,d2,d3)` for
ranks 1-4, and `labels_shape` from the labels' rank as the scalar `1`,
the int `cols`, `(d1,d2)`, `(d1,d2,d3)` for ranks 1-4. -/
theorem checklist_shape_inference (s : TrainState) (input labels : NDArray)
    (h0 : s.input_shape = none) (h1 : 1 ≤ input.ndim) :
    checklist_ok (pre_training_checklist_master s input labels) = true ∧
    (input.ndim = 1 →
      checklist_input_shape (pre_training_checklist_master s input labels) =
        some (PyShape.tup [1, 1])) ∧
    (input.ndim = 2 →
      checklist_input_shape (pre_training_checklist_master s input labels) =
        some (PyShape.tup [input.dim 1, 1])) ∧
    (input.ndim = 3 →
      checklist_input_shape (pre_training_checklist_master s input labels) =
        some (PyShape.tup [input.dim 1, input.dim 2, 1])) ∧
    (input.ndim = 4 →
      checklist_input_shape (pre_training_checklist_master s input labels) =
        some (PyShape.tup [input.dim 1, input.dim 2, input.dim 3])) ∧
    (labels.ndim = 1 →
      checklist_labels_shape (pre_training_checklist_master s input labels) =
        some (PyShape.int 1)) ∧
    (labels.ndim = 2 →
      checklist_labels_shape (pre_training_checklist_master s input labels) =
        some (PyShape.int (labels.dim 1))) ∧
    (labels.ndim = 3 →
      checklist_labels_shape (pre_training_checklist_master s input labels) =
        some (PyShape.tup [labels.dim 1, labels.dim 2])) ∧
    (labels.ndim = 4 →
      checklist_labels_shape (pre_training_checklist_master s input labels) =
        some (PyShape.tup [labels.dim 1, labels.dim 2, labels.dim 3])) := by
  obtain ⟨rows, t, hs⟩ := one_le_ndim_shape input h1
  rw [pre_ok_form s input labels rows t hs h0]
  refine ⟨rfl, ?_, ?_, ?_, ?_, ?_, ?_, ?_, ?_⟩
  · intro hnd; simp [checklist_input_shape, hnd]
  · intro hnd; simp [checklist_input_shape, hnd]
  · intro hnd; simp [checklist_input_shape, hnd]
  · intro hnd; simp [checklist_input_shape, hnd]
  · intro hnd; simp [checklist_labels_shape, hnd]
  · intro hnd; simp [checklist_labels_shape, hnd]
  · intro hnd; simp [checklist_labels_shape, hnd]
  · intro hnd; simp [checklist_labels_shape, hnd]

theorem checklist_shape_inference_witness :
    checklist_input_shape (pre_training_checklist_master s0W inW labW) =
      some (PyShape.tup [3, 1]) ∧
    checklist_labels_shape (pre_training_checklist_master s0W inW labW) =
      some (PyShape.int 4) := by
  have h := checklist_shape_inference s0W inW labW rfl (by decide)
  exact ⟨(h.2.2.1 rfl).trans rfl, (h.2.2.2.2.2.2.1 rfl).trans rfl⟩

/-- C7 (amended): with `input_shape` unset and an input of rank 5 or
more, `pre_training_checklist_master` completes normally and leaves
`input_shape` unset (`None`), deferring any failure to later framework
use of the missing shape; only a rank-0 input makes the call itself fail,
with the IndexError from the row-count access `input_data.shape[0]`. -/
theorem checklist_unmapped_rank (s : TrainState) (input labels : NDArray)
    (h0 : s.input_shape = none) :
    (input.ndim = 0 →
      pre_training_checklist_master s input labels =
        Except.error "IndexError: tuple index out of range") ∧
    (5 ≤ input.ndim →
      checklist_ok (pre_training_checklist_master s input labels) = true ∧
      checklist_input_shape (pre_training_checklist_master s input labels) = none) := by
  constructor
  · intro hz
    have hs : input.shape = [] := by
      rw [NDArray.ndim] at hz
      exact List.length_eq_zero.mp hz
    unfold pre_training_checklist_master
    split
    · rfl
    · rename_i rows2 heq
      rw [hs] at heq
      cases heq
  · intro h5
    obtain ⟨rows, t, hs⟩ := one_le_ndim_shape input (by omega)
    rw [pre_ok_form s input labels rows t hs h0]
    refine ⟨rfl, ?_⟩
    simp only [checklist_input_shape]
    rw [if_neg (by omega), if_neg (by omega), if_neg (by omega), if_neg (by omega)]
    exact h0

/-- C7 counterexample: a rank-5 input with `input_shape` unset does not
make `pre_training_checklist_master` fail: the call completes normally
(no branch of the rank dispatch matches, so `input_shape` is simply left
unset), contradicting the claim that the call must fail rather than
complete. -/
theorem checklist_rank5_completes :
    checklist_ok (pre_training_checklist_master s0W in5W labW) = true ∧
    checklist_input_shape (pre_training_checklist_master s0W in5W labW) = none := by
  constructor <;> rfl

theorem checklist_unmapped_rank_witness :
    pre_training_checklist_master s0W in0W labW =
      Except.error "IndexError: tuple index out of range" ∧
    checklist_input_shape (pre_training_checklist_master s0W in5W labW) = none := by
  exact ⟨(checklist_unmapped_rank s0W in0W labW rfl).1 rfl,
    ((checklist_unmapped_rank s0W in5W labW rfl).2 (by decide)).2⟩

/-- C8: after a checklist call with `val_size` set to `v` in `[0,1)` and
a nonempty input, `val_num` equals `floor(row_count * v)` and
`num_train + val_num` equals the row count of the input data. -/
theorem checklist_split_counts (s : TrainState) (input labels : NDArray) (v : Rat)
    (h0 : s.val_size = some v) (h1 : 0 ≤ v) (h2 : v < 1) (h3 : 1 ≤ input.ndim) :
    checklist_val_num (pre_training_checklist_master s input labels) =
      some ⌊(input.shape.headD 0 : Rat) * v⌋ ∧
    (checklist_num_train (pre_training_checklist_master s input labels)).getD 0 +
        (checklist_val_num (pre_training_checklist_master s input labels)).getD 0 =
      (input.shape.headD 0 : Int) := by
  obtain ⟨rows, t, hs⟩ := one_le_ndim_shape input h3
  have hrows : input.shape.headD 0 = rows := by rw [hs]; rfl
  have hvz : (s.val_size).getD 0 = v := by rw [h0]; rfl
  have hpy : pyInt ((rows : Rat) * v) = ⌊(rows : Rat) * v⌋ := by
    unfold pyInt
    rw [if_pos (mul_nonneg (by positivity) h1)]
  by_cases hin : s.input_shape = none
  · rw [pre_ok_form s input labels rows t hs hin]
    constructor
    · simp only [checklist_val_num, hvz, hrows, hpy]
    · simp only [checklist_num_train, checklist_val_num, hvz, hrows, Option.getD_some]
      omega
  · rw [pre_ok_form2 s input labels rows t hs hin]
    constructor
    · simp only [checklist_val_num, hvz, hrows, hpy]
    · simp only [checklist_num_train, checklist_val_num, hvz, hrows, Option.getD_some]
      omega

theorem checklist_split_counts_witness :
    checklist_val_num (pre_training_checklist_master s8W inW labW) = some 2 ∧
    (checklist_num_train (pre_training_checklist_master s8W inW labW)).getD 0 +
        (checklist_val_num (pre_training_checklist_master s8W inW labW)).getD 0 =
      7 := by
  have h := checklist_split_counts s8W inW labW (3 / 10) rfl (by norm_num)
    (by norm_num) (by decide)
  refine ⟨h.1.trans ?_, h.2.trans ?_⟩
  · norm_num [inW]
  · norm_num [inW]

/-- C9: saving twice into the same folder appends rather than
overwrites: after the second `save`, the file is exactly the first run's
content followed by a newline, the `======Another Run======` separator
marker, and the second run's key/value lines, so the first run's lines
are all preserved as a prefix. -/
theorem save_appends_hyperfile (c1 c2 : RunInfo) :
    save_hyperfile (some (save_hyperfile none c1)) c2 =
      save_hyperfile none c1 ++ "\n" ++ "======Another Run======" ++ hyper_text c2 ∧
    save_hyperfile none c1 = hyper_text c1 ∧
    (save_hyperfile none c1).data <+:
      (save_hyperfile (some (save_hyperfile none c1)) c2).data := by
  refine ⟨rfl, rfl, ?_⟩
  show (hyper_text c1).data <+:
    (((hyper_text c1 ++ "\n") ++ "======Another Run======") ++ hyper_text c2).data
  exact ((List.prefix_append _ _).trans (List.prefix_append _ _)).trans
    (List.prefix_append _ _)
